import Mathlib

set_option maxRecDepth 8000

/-!
Verification of the pricing pipeline in `server.js` (Shopify repricing
service).  JavaScript numbers are modelled as exact rationals `ℚ`;
`Number.EPSILON` is `2^-52`, `Math.round x` is `⌊x + 1/2⌋` (JS rounds
half towards positive infinity), `Math.ceil`/`Math.floor` are `⌈⌉`/`⌊⌋`,
`Math.abs` is `|·|`.  The floor, ceiling and absolute value operations are
implemented by the kernel-computable `ratFloor`, `ratCeil` and `ratAbs`,
proved equal to Mathlib's `⌊⌋`, `⌈⌉` and `|·|`.  Fallible or absent JS
values are modelled with `Option`.
-/

namespace Pricing

/-- Computable floor on `ℚ` (agrees with `⌊⌋`, see `ratFloor_eq`). -/
def ratFloor (q : ℚ) : ℤ := Int.fdiv q.num q.den

/-- Computable ceiling on `ℚ` (agrees with `⌈⌉`, see `ratCeil_eq`). -/
def ratCeil (q : ℚ) : ℤ := -ratFloor (-q)

/-- Computable absolute value on `ℚ`, JS `Math.abs`. -/
def ratAbs (q : ℚ) : ℚ := if q < 0 then -q else q

/-- JS `Number.EPSILON`, the value `2^-52` used by `roundToTwo` in server.js line 31. -/
def eps : ℚ := 1 / 4503599627370496

/-- JS `Math.round`: rounds to the nearest integer, halves towards `+∞`. -/
def jsRound (x : ℚ) : ℤ := ratFloor (x + 1 / 2)

/-- server.js lines 30-32: `Math.round((n + Number.EPSILON) * 100) / 100`. -/
def roundToTwo (n : ℚ) : ℚ := (jsRound ((n + eps) * 100) : ℚ) / 100

/-- The `ROUND_MODE` configuration: `none | .99 | .95 | whole`
(server.js line 19).  Any other string behaves like `none`
(server.js line 50), so the enumeration covers all behaviours. -/
inductive RoundMode
  | none
  | r99
  | r95
  | whole
deriving DecidableEq, Repr

/-- server.js lines 33-51, `applyRounding`, with the rounding mode made an
explicit argument (in the source it is the ambient `ROUND_MODE`). -/
def applyRounding (mode : RoundMode) (priceNum : ℚ) : ℚ :=
  match mode with
  | RoundMode.none => roundToTwo priceNum
  | RoundMode.r99 =>
      let nextWhole : ℚ := (ratCeil priceNum : ℚ)
      roundToTwo (nextWhole - 1 / 100)
  | RoundMode.r95 =>
      let w : ℚ := (ratFloor priceNum : ℚ)
      let candidate1 := w + 95 / 100
      let candidate2 := w + 195 / 100
      let diff1 := ratAbs (candidate1 - priceNum)
      let diff2 := ratAbs (candidate2 - priceNum)
      if diff1 ≤ diff2 then roundToTwo candidate1 else roundToTwo candidate2
  | RoundMode.whole => roundToTwo ((jsRound priceNum : ℚ))

/-- server.js lines 156-161: `computePriceFromCost`,
`P = (cost + 0.30) / 0.961`, passed through `applyRounding`. -/
def computePriceFromCost (mode : RoundMode) (cost : ℚ) : ℚ :=
  applyRounding mode ((cost + 3 / 10) / (961 / 1000))

/-! ## JS string helpers -/

/-- Is `needle` a prefix of `hay` (character lists)? -/
def charsHasPre : List Char → List Char → Bool
  | [], _ => true
  | _ :: _, [] => false
  | a :: as, b :: bs => a == b && charsHasPre as bs

/-- Does `hay` contain `needle` as a contiguous substring? -/
def charsHasSub (needle : List Char) : List Char → Bool
  | [] => needle.isEmpty
  | b :: bs => charsHasPre needle (b :: bs) || charsHasSub needle bs

/-- JS `hay.includes(needle)`. -/
def strIncludes (hay needle : String) : Bool :=
  charsHasSub needle.toList hay.toList

/-- JS `s.toLowerCase()` (kernel-computable counterpart of
`String.toLower`; ASCII behaviour agrees with JS). -/
def strToLower (s : String) : String := String.mk (s.data.map Char.toLower)

/-- JS `s.trim()`: drop whitespace from both ends (kernel-computable
counterpart of `String.trim`). -/
def strTrim (s : String) : String :=
  String.mk (((s.data.dropWhile Char.isWhitespace).reverse.dropWhile
    Char.isWhitespace).reverse)

/-- JS `a || b || ... || ''` over possibly-absent strings: the first operand
that is present and non-empty (JS truthiness: `undefined` and `''` are
falsy), else `""`. -/
def firstTruthy : List (Option String) → String
  | [] => ""
  | Option.some s :: rest => if s = "" then firstTruthy rest else s
  | Option.none :: rest => firstTruthy rest

/-! ## AliExpress CSV cost table (server.js lines 53-76)

A parsed CSV record (`columns: true`) is a row object whose recognized
fields are `sku`, `SKU`, `cost`, `cost_usd`, `price`, `price_usd`; a
missing column is `Option.none`.  `parseFloat` is a parameter
`pf : String → Option ℚ` (`Option.none` models `NaN`). -/

structure CsvRow where
  sku : Option String
  SKU : Option String
  cost : Option String
  cost_usd : Option String
  price : Option String
  price_usd : Option String

/-- server.js line 66: `(r.sku || r.SKU || '').trim()`. -/
def rowSku (r : CsvRow) : String := strTrim (firstTruthy [r.sku, r.SKU])

/-- The string handed to `parseFloat` on server.js line 67:
`r.cost || r.cost_usd || r.price || r.price_usd || '0'`. -/
def rowCostStr (r : CsvRow) : String :=
  let s := firstTruthy [r.cost, r.cost_usd, r.price, r.price_usd]
  if s = "" then "0" else s

/-- server.js lines 67-68: parse the cost, `NaN` becomes `0`. -/
def rowCost (pf : String → Option ℚ) (r : CsvRow) : ℚ :=
  (pf (rowCostStr r)).getD 0

/-- One iteration of the loop on server.js lines 65-69: skip the row if its
trimmed SKU is empty, otherwise record its cost (the new entry is consed on
the front, so `lookupCost` sees the most recent write first: JS
`map[sku] = ...` overwrites). -/
def loadStep (pf : String → Option ℚ) (m : List (String × ℚ)) (r : CsvRow) :
    List (String × ℚ) :=
  if rowSku r = "" then m else (rowSku r, rowCost pf r) :: m

/-- server.js lines 55-76, `loadAliExpressCSV`: build the SKU → cost table
from the parsed rows, in row order. -/
def loadAliExpressCSV (pf : String → Option ℚ) (rows : List CsvRow) :
    List (String × ℚ) :=
  rows.foldl (loadStep pf) []

/-- server.js line 183: `aliexpressCostBySku[sku] || 0` — the stored cost for
`sku` (most recent write), or `0` when absent. -/
def lookupCost (m : List (String × ℚ)) (sku : String) : ℚ :=
  match m.find? (fun e => e.1 == sku) with
  | Option.some e => e.2
  | Option.none => 0

/-! ## Printify lookup (server.js lines 83-117) -/

/-- A variant object returned by the Printify products endpoint.  The price
fields hold `Option.none` when absent and the parsed `parseFloat` value
otherwise (server.js line 103 skips a field unless it is truthy and
parses to a number). -/
structure PifyVariant where
  sku : Option String
  offer_id : Option String
  price : Option ℚ
  retail_price : Option ℚ
  default_price : Option ℚ
  variant_price : Option ℚ

/-- A product object: its `variants` list. -/
structure PifyProduct where
  variants : List PifyVariant

/-- server.js line 97: `(v.sku || v.offer_id || '').trim()`. -/
def pifySku (v : PifyVariant) : String := strTrim (firstTruthy [v.sku, v.offer_id])

/-- server.js lines 101-105: the first populated field among
`[price, retail_price, default_price, variant_price]`, else `0`. -/
def firstCandidate : List (Option ℚ) → ℚ
  | [] => 0
  | Option.some q :: _ => q
  | Option.none :: rest => firstCandidate rest

/-- The ordered candidate cost of a matched variant. -/
def candidateCost (v : PifyVariant) : ℚ :=
  firstCandidate [v.price, v.retail_price, v.default_price, v.variant_price]

/-- server.js lines 96-107: scan one product's variant list for `sku`
(variants with an empty effective SKU are skipped). -/
def scanVariants (sku : String) : List PifyVariant → Option ℚ
  | [] => Option.none
  | v :: rest =>
      let vSku := pifySku v
      if vSku = "" then scanVariants sku rest
      else if vSku = sku then Option.some (candidateCost v)
      else scanVariants sku rest

/-- server.js lines 94-108: scan one page (a list of products). -/
def scanPage (sku : String) : List PifyProduct → Option ℚ
  | [] => Option.none
  | p :: rest =>
      match scanVariants sku p.variants with
      | Option.some c => Option.some c
      | Option.none => scanPage sku rest

/-- Page size of the Printify listing, server.js line 87. -/
def perPage : Nat := 50

/-- server.js lines 88-111, the `while (true)` pagination loop.  The input
lists the successive non-trivial responses of the API; once they are
exhausted the API returns an empty list.  The result is the cost found
(0 when the traversal ends without a match) paired with the number of
pages fetched.  Mirroring the source: each iteration fetches a page;
an empty page breaks; a match returns immediately; a short page breaks
after being scanned; otherwise the next page is fetched. -/
def printifyLoop (sku : String) : List (List PifyProduct) → ℚ × Nat
  | [] => (0, 1)
  | pg :: rest =>
      if pg.isEmpty then (0, 1)
      else
        match scanPage sku pg with
        | Option.some c => (c, 1)
        | Option.none =>
            if pg.length < perPage then (0, 1)
            else
              let r := printifyLoop sku rest
              (r.1, r.2 + 1)

/-- server.js lines 84-117, `getPrintifyVariantCostBySku`: returns `0`
without fetching when the Printify credentials are not configured. -/
def getPrintifyVariantCostBySku (configured : Bool)
    (pages : List (List PifyProduct)) (sku : String) : ℚ :=
  if configured then (printifyLoop sku pages).1 else 0

/-- Number of pages the lookup fetches (0 when not configured). -/
def printifyFetchCount (configured : Bool)
    (pages : List (List PifyProduct)) (sku : String) : Nat :=
  if configured then (printifyLoop sku pages).2 else 0

/-! ## Pricing job (server.js lines 163-210) -/

/-- A Shopify variant as used by the job: `sku` is the raw `v.sku || ''`,
`price` is the value of `parseFloat(v.price || '0')` (server.js line 192). -/
structure ShopVariant where
  id : Nat
  sku : String
  price : ℚ

/-- A Shopify product: vendor, title, variants (`p.vendor || ''`,
`p.title || ''`, `p.variants || []`). -/
structure ShopProduct where
  vendor : String
  title : String
  variants : List ShopVariant

/-- Per-variant outcome: exactly one of the three counters of the job. -/
inductive VOutcome
  | updated
  | skipped
  | err
deriving DecidableEq, Repr

/-- The three counters returned by `runPricingJob` (server.js line 209). -/
structure PricingOutcome where
  updated : Nat
  skipped : Nat
  errors : Nat
deriving DecidableEq, Repr

/-- The ambient state a pricing pass reads: rounding mode, Printify
configuration and catalog, the CSV cost table, and the per-variant
success of `updateShopifyVariantPrice` (server.js lines 143-153: the
update either succeeds or fails, it never throws). -/
structure Env where
  mode : RoundMode
  printifyConfigured : Bool
  printifyPages : List (List PifyProduct)
  table : List (String × ℚ)
  updateOk : Nat → Bool

/-- server.js lines 179-184: vendor/title routing of cost resolution.
The vendor is lowercased on line 173, the title on line 180. -/
def routesToPrintify (vendor title : String) : Bool :=
  strIncludes (strToLower vendor) "printify" ||
    strIncludes (strToLower title) "printify"

/-- The supplier cost resolved for a (trimmed) SKU of a product with the
given vendor and title (server.js lines 177-184). -/
def resolveSupplierCost (e : Env) (vendor title sku : String) : ℚ :=
  if routesToPrintify vendor title then
    getPrintifyVariantCostBySku e.printifyConfigured e.printifyPages sku
  else lookupCost e.table sku

/-- server.js lines 175-204, the body of the per-variant loop: resolve the
cost; skip when it is not positive (line 186: `!supplierCost ||
supplierCost <= 0`); otherwise compute the target price and compare with
tolerance `0.009` (line 194); attempt the update when the difference
exceeds it.  The second component records the attempted update
`(variant id, new price)`, `Option.none` when no update was attempted. -/
def processVariant (e : Env) (vendor title : String) (v : ShopVariant) :
    VOutcome × Option (Nat × ℚ) :=
  let sku := strTrim v.sku
  let supplierCost := resolveSupplierCost e vendor title sku
  if supplierCost ≤ 0 then (VOutcome.skipped, Option.none)
  else
    let newPrice := computePriceFromCost e.mode supplierCost
    let currentPrice := v.price
    if 9 / 1000 < ratAbs (currentPrice - newPrice) then
      ((if e.updateOk v.id then VOutcome.updated else VOutcome.err),
        Option.some (v.id, newPrice))
    else (VOutcome.skipped, Option.none)

/-- The per-variant results of a pass, in iteration order
(server.js lines 172-206). -/
def jobResults (e : Env) (products : List ShopProduct) :
    List (VOutcome × Option (Nat × ℚ)) :=
  products.flatMap fun p => p.variants.map (processVariant e p.vendor p.title)

/-- server.js lines 164-210, `runPricingJob`: the counters accumulated over
all variants of all fetched products. -/
def runPricingJob (e : Env) (products : List ShopProduct) : PricingOutcome :=
  { updated := (jobResults e products).countP (fun r => r.1 == VOutcome.updated)
    skipped := (jobResults e products).countP (fun r => r.1 == VOutcome.skipped)
    errors := (jobResults e products).countP (fun r => r.1 == VOutcome.err) }

/-- The price updates a pass attempts, in order. -/
def attemptedUpdates (e : Env) (products : List ShopProduct) : List (Nat × ℚ) :=
  (jobResults e products).filterMap (fun r => r.2)

/-! ## Concrete scenario data used by the claim theorems -/

/-- A filler product whose single variant has a SKU that matches nothing. -/
def dummyPify : PifyProduct :=
  ⟨[⟨Option.some "D", Option.none, Option.some 1, Option.none, Option.none,
      Option.none⟩]⟩

/-- A full page: 50 filler products. -/
def fullPage : List PifyProduct := List.replicate 50 dummyPify

/-- The sought variant: SKU `TARGET`, `price` absent, `retail_price = 7`,
`default_price = 9`; the first populated candidate field is `retail_price`. -/
def targetVariant : PifyVariant :=
  ⟨Option.some "TARGET", Option.none, Option.none, Option.some 7,
    Option.some 9, Option.none⟩

/-- A full page of 50 products whose last product holds the target. -/
def matchPage : List PifyProduct :=
  List.replicate 49 dummyPify ++ [⟨[targetVariant]⟩]

/-- The `parseFloat` used in the C8 witness: parses `"4.00"`, rejects the
rest. -/
def pfW : String → Option ℚ :=
  fun s => if s = "4.00" then Option.some 4 else Option.none

/-- A CSV row whose SKU trims to empty. -/
def rowEmptyW : CsvRow :=
  ⟨Option.some "  ", Option.none, Option.some "4.00", Option.none,
    Option.none, Option.none⟩

/-- A CSV row with SKU `SKU123` and unparsable cost `abc`. -/
def rowBadW : CsvRow :=
  ⟨Option.some "SKU123", Option.none, Option.some "abc", Option.none,
    Option.none, Option.none⟩

/-- A CSV row with SKU `SKU123` and cost `4.00`. -/
def rowGoodW : CsvRow :=
  ⟨Option.some "SKU123", Option.none, Option.some "4.00", Option.none,
    Option.none, Option.none⟩

/-- The environment of the spec's end-to-end scenario: rounding mode `none`,
Printify not configured, cost table mapping `SKU123` to 4.00, updates
succeed. -/
def envScenario : Env :=
  ⟨RoundMode.none, false, [], [("SKU123", 4)], fun _ => true⟩

/-- One bulk-feed-routed product with one variant: SKU `SKU123`, current
price 4.00. -/
def productsScenario : List ShopProduct :=
  [⟨"Generic", "Plain Tee", [⟨101, "SKU123", 4⟩]⟩]

theorem ratFloor_eq (q : ℚ) : ratFloor q = ⌊q⌋ := by
  rw [Rat.floor_def, ratFloor, Int.fdiv_eq_ediv _ (by positivity)]

theorem ratCeil_eq (q : ℚ) : ratCeil q = ⌈q⌉ := by
  rw [ratCeil, ratFloor_eq, ← Int.ceil_neg, neg_neg]

theorem ratAbs_eq (q : ℚ) : ratAbs q = |q| := by
  unfold ratAbs
  split
  · rw [abs_of_neg (by assumption)]
  · rw [abs_of_nonneg (le_of_not_lt (by assumption))]

/-- Concrete rational equalities are established through the numerator of
the difference, which the kernel evaluates directly. -/
theorem eq_of_sub_num (a b : ℚ) (h : (a - b).num = 0) : a = b :=
  sub_eq_zero.mp (Rat.num_eq_zero.mp h)

example : roundToTwo (4300 / 961) = 447 / 100 := by with_unfolding_all decide
example : computePriceFromCost RoundMode.none 4 = 447 / 100 := by with_unfolding_all decide
example : applyRounding RoundMode.r99 (72 / 10) = 799 / 100 := by with_unfolding_all decide
example : applyRounding RoundMode.r95 (72 / 10) = 795 / 100 := by with_unfolding_all decide
example : applyRounding RoundMode.whole (74 / 10) = 7 := by with_unfolding_all decide
example : applyRounding RoundMode.whole (76 / 10) = 8 := by with_unfolding_all decide
example : strIncludes "printify prints" "printify" = true := by decide
example : strIncludes "generic" "printify" = false := by decide
example : strToLower "PrInTiFy PrInts" = "printify prints" := by decide
example : strTrim "  SKU123 " = "SKU123" := by decide

/-! ## Rounding lemmas -/

theorem jsRound_eq (x : ℚ) : jsRound x = ⌊x + 1 / 2⌋ := by
  rw [jsRound, ratFloor_eq]

/-- The map `roundToTwo` fixes every rational with denominator dividing 100: the
epsilon nudge `2^-52` is too small to move the half-up rounding. -/
theorem roundToTwo_int_div (k : ℤ) :
    roundToTwo ((k : ℚ) / 100) = (k : ℚ) / 100 := by
  have h1 : ((k : ℚ) / 100 + eps) * 100 + 1 / 2 = (k : ℚ) + (100 * eps + 1 / 2) := by
    ring
  have h2 : ⌊(100 * eps + 1 / 2 : ℚ)⌋ = 0 := by
    rw [Int.floor_eq_zero_iff]
    constructor <;> norm_num [eps]
  rw [roundToTwo, jsRound_eq, h1, Int.floor_int_add, h2]
  push_cast
  ring

/-- Closed form of the `.99` mode: round up to the next whole, minus a cent. -/
theorem applyRounding_r99_eq (x : ℚ) :
    applyRounding RoundMode.r99 x = (⌈x⌉ : ℚ) - 1 / 100 := by
  show roundToTwo ((ratCeil x : ℚ) - 1 / 100) = (⌈x⌉ : ℚ) - 1 / 100
  rw [ratCeil_eq]
  have h : ((⌈x⌉ : ℚ)) - 1 / 100 = ((100 * ⌈x⌉ - 1 : ℤ) : ℚ) / 100 := by
    push_cast
    ring
  rw [h, roundToTwo_int_div]

/-- Closed form of the `.95` mode: the lower candidate `⌊x⌋ + 0.95` is never
strictly farther from `x` than `⌊x⌋ + 1.95`, so it is always chosen. -/
theorem applyRounding_r95_eq (x : ℚ) :
    applyRounding RoundMode.r95 x = (⌊x⌋ : ℚ) + 95 / 100 := by
  show (if ratAbs ((ratFloor x : ℚ) + 95 / 100 - x) ≤
          ratAbs ((ratFloor x : ℚ) + 195 / 100 - x)
        then roundToTwo ((ratFloor x : ℚ) + 95 / 100)
        else roundToTwo ((ratFloor x : ℚ) + 195 / 100)) = (⌊x⌋ : ℚ) + 95 / 100
  rw [ratFloor_eq, ratAbs_eq, ratAbs_eq]
  have hf1 : ((⌊x⌋ : ℚ)) ≤ x := Int.floor_le x
  have hf2 : x < ((⌊x⌋ : ℚ)) + 1 := Int.lt_floor_add_one x
  have habs2 : |((⌊x⌋ : ℚ)) + 195 / 100 - x| = ((⌊x⌋ : ℚ)) + 195 / 100 - x :=
    abs_of_pos (by linarith)
  have hcond : |((⌊x⌋ : ℚ)) + 95 / 100 - x| ≤ |((⌊x⌋ : ℚ)) + 195 / 100 - x| := by
    rw [habs2]
    exact abs_le.mpr ⟨by linarith, by linarith⟩
  rw [if_pos hcond]
  have h : ((⌊x⌋ : ℚ)) + 95 / 100 = ((100 * ⌊x⌋ + 95 : ℤ) : ℚ) / 100 := by
    push_cast
    ring
  rw [h, roundToTwo_int_div]

/-- Closed form of the `whole` mode: round half-up to an integer. -/
theorem applyRounding_whole_eq (x : ℚ) :
    applyRounding RoundMode.whole x = (jsRound x : ℚ) := by
  show roundToTwo ((jsRound x : ℚ)) = (jsRound x : ℚ)
  have h : ((jsRound x : ℚ)) = ((100 * jsRound x : ℤ) : ℚ) / 100 := by
    push_cast
    ring
  rw [h, roundToTwo_int_div]

/-! ## Claim C7: rounding idempotence -/

/-- C7: rounding is idempotent — for every price `x` and every rounding mode
(`none`, `.99`, `.95`, `whole`), applying `applyRounding` twice gives the
same result as applying it once. -/
theorem applyRounding_idempotent (mode : RoundMode) (x : ℚ) :
    applyRounding mode (applyRounding mode x) = applyRounding mode x := by
  cases mode with
  | none =>
      show roundToTwo (roundToTwo x) = roundToTwo x
      exact roundToTwo_int_div _
  | r99 =>
      rw [applyRounding_r99_eq, applyRounding_r99_eq]
      have hc : ⌈((⌈x⌉ : ℚ)) - 1 / 100⌉ = ⌈x⌉ := by
        rw [Int.ceil_eq_iff]
        constructor
        · linarith
        · linarith
      rw [hc]
  | r95 =>
      rw [applyRounding_r95_eq, applyRounding_r95_eq, Int.floor_int_add]
      norm_num
  | whole =>
      rw [applyRounding_whole_eq, applyRounding_whole_eq]
      have h : jsRound ((jsRound x : ℚ)) = jsRound x := by
        rw [jsRound_eq (((jsRound x : ℚ))), Int.floor_int_add]
        norm_num
      rw [h]

/-! ## Claim C10: the `.95` mode always picks the lower candidate -/

/-- C10: in rounding mode `.95`, for every non-negative input price the
result is `⌊price⌋ + 0.95`; the higher candidate `⌊price⌋ + 1.95` is never
strictly closer to the input, so it is never chosen. -/
theorem r95_eq_floor_add_95 (x : ℚ) (hx : 0 ≤ x) :
    applyRounding RoundMode.r95 x = (⌊x⌋ : ℚ) + 95 / 100 ∧
    ratAbs ((⌊x⌋ : ℚ) + 95 / 100 - x) ≤ ratAbs ((⌊x⌋ : ℚ) + 195 / 100 - x) := by
  refine ⟨applyRounding_r95_eq x, ?_⟩
  rw [ratAbs_eq, ratAbs_eq]
  have hf1 : ((⌊x⌋ : ℚ)) ≤ x := Int.floor_le x
  have hf2 : x < ((⌊x⌋ : ℚ)) + 1 := Int.lt_floor_add_one x
  have habs2 : |((⌊x⌋ : ℚ)) + 195 / 100 - x| = ((⌊x⌋ : ℚ)) + 195 / 100 - x :=
    abs_of_pos (by linarith)
  rw [habs2]
  exact abs_le.mpr ⟨by linarith, by linarith⟩

/-- Witness for C10 at `x = 7.20`: the result is `7.95`. -/
theorem r95_eq_floor_add_95_witness :
    (0 : ℚ) ≤ 72 / 10 ∧
    applyRounding RoundMode.r95 (72 / 10) = ((⌊(72 / 10 : ℚ)⌋ : ℚ)) + 95 / 100 ∧
    ratAbs (((⌊(72 / 10 : ℚ)⌋ : ℚ)) + 95 / 100 - 72 / 10) ≤
      ratAbs (((⌊(72 / 10 : ℚ)⌋ : ℚ)) + 195 / 100 - 72 / 10) :=
  ⟨by norm_num, (r95_eq_floor_add_95 (72 / 10) (by norm_num)).1,
    (r95_eq_floor_add_95 (72 / 10) (by norm_num)).2⟩

/-! ## Claim C1: the margin formula inverts back to the cost -/

/-- C1: for every cost ≥ 0, the price returned by `computePriceFromCost`
(rounding mode `none`, the formula result passed through the rounding
policy) satisfies `price * 0.961 - 0.30 = cost` up to the half-cent
perturbation of the rounding, `|price * 0.961 - 0.30 - cost| ≤ 1/200`. -/
theorem priceFromCost_inversion (cost : ℚ) (h : 0 ≤ cost) :
    |computePriceFromCost RoundMode.none cost * (961 / 1000) - 3 / 10 - cost| ≤
      1 / 200 := by
  show |roundToTwo ((cost + 3 / 10) / (961 / 1000)) * (961 / 1000) - 3 / 10 - cost| ≤
      1 / 200
  set P : ℚ := (cost + 3 / 10) / (961 / 1000) with hP
  rw [roundToTwo, jsRound_eq]
  set z : ℚ := (P + eps) * 100 + 1 / 2 with hz
  have h1 : ((⌊z⌋ : ℚ)) ≤ z := Int.floor_le z
  have h2 : z - 1 < ((⌊z⌋ : ℚ)) := Int.sub_one_lt_floor z
  have hPe : P * (961 / 1000) = cost + 3 / 10 := by
    rw [hP]
    exact div_mul_cancel₀ _ (by norm_num)
  have heps : eps = 1 / 4503599627370496 := rfl
  clear_value P z
  rw [abs_le]
  constructor
  · linarith [h1, h2, hPe, heps, hz]
  · linarith [h1, h2, hPe, heps, hz]

/-- Witness for C1 at `cost = 4`. -/
theorem priceFromCost_inversion_witness :
    (0 : ℚ) ≤ 4 ∧
    |computePriceFromCost RoundMode.none 4 * (961 / 1000) - 3 / 10 - 4| ≤ 1 / 200 :=
  ⟨by norm_num, priceFromCost_inversion 4 (by norm_num)⟩

/-! ## Claim C5: vendor/title routing of cost resolution -/

/-- C5: a record whose vendor contains the marker `"printify"`
case-insensitively — such as vendor `"Printify Prints"`, whatever its
title — resolves its cost through the Printify (remote-catalog) lookup,
while a record whose vendor and title both lack the marker — such as
vendor `"Generic"`, title `"Plain Tee"` — resolves through the CSV
(bulk-feed) table. -/
theorem vendor_routing :
    (∀ e : Env, ∀ title sku : String,
        resolveSupplierCost e "Printify Prints" title sku =
          getPrintifyVariantCostBySku e.printifyConfigured e.printifyPages sku) ∧
    (∀ e : Env, ∀ sku : String,
        resolveSupplierCost e "Generic" "Plain Tee" sku =
          lookupCost e.table sku) := by
  constructor
  · intro e title sku
    have hv : strIncludes (strToLower "Printify Prints") "printify" = true := by
      decide
    have h : routesToPrintify "Printify Prints" title = true := by
      rw [routesToPrintify, hv, Bool.true_or]
    rw [resolveSupplierCost, h]
    rfl
  · intro e sku
    have h : routesToPrintify "Generic" "Plain Tee" = false := by decide
    rw [resolveSupplierCost, h]
    rfl

/-! ## Claim C3: non-positive resolved cost is always skipped -/

/-- C3: a variant whose resolved supplier cost is not positive (0, negative,
or unresolved — an unresolved lookup yields 0) is counted as skipped and no
update is attempted for it, regardless of its current price. -/
theorem skip_nonpositive_cost (e : Env) (vendor title : String) (v : ShopVariant)
    (h : resolveSupplierCost e vendor title (strTrim v.sku) ≤ 0) :
    processVariant e vendor title v = (VOutcome.skipped, Option.none) := by
  rw [processVariant]
  simp only [h, if_pos]

/-- Witness for C3: an empty cost table resolves `"NOPE"` to 0, and the
variant is skipped even though its current price (10) is far from any
computed price. -/
theorem skip_nonpositive_cost_witness :
    resolveSupplierCost
        ⟨RoundMode.none, false, [], [], fun _ => true⟩ "Generic" "T"
        (strTrim "NOPE") ≤ 0 ∧
      processVariant ⟨RoundMode.none, false, [], [], fun _ => true⟩ "Generic" "T"
        ⟨1, "NOPE", 10⟩ = (VOutcome.skipped, Option.none) :=
  ⟨by with_unfolding_all decide,
    skip_nonpositive_cost _ _ _ _ (by with_unfolding_all decide)⟩

/-! ## Claim C4: the 0.009 tolerance boundary -/

/-- C4: for a variant whose resolved cost is positive, a difference between
current price and computed target price of exactly `0.009` is skipped with
no update attempted, while a difference of `0.0091` leads to an attempted
update (to the computed price, whatever the updater then returns). -/
theorem tolerance_boundary (e : Env) (vendor title : String) (v : ShopVariant)
    (hpos : 0 < resolveSupplierCost e vendor title (strTrim v.sku)) :
    (ratAbs (v.price -
          computePriceFromCost e.mode
            (resolveSupplierCost e vendor title (strTrim v.sku))) = 9 / 1000 →
        processVariant e vendor title v = (VOutcome.skipped, Option.none)) ∧
    (ratAbs (v.price -
          computePriceFromCost e.mode
            (resolveSupplierCost e vendor title (strTrim v.sku))) = 91 / 10000 →
        (processVariant e vendor title v).2 =
          Option.some (v.id,
            computePriceFromCost e.mode
              (resolveSupplierCost e vendor title (strTrim v.sku)))) := by
  constructor
  · intro hd
    rw [processVariant]
    simp only [not_le.mpr hpos, if_false, hd]
    norm_num
  · intro hd
    rw [processVariant]
    simp only [not_le.mpr hpos, if_false, hd]
    have : (9 / 1000 : ℚ) < 91 / 10000 := by norm_num
    simp only [this, if_pos]

/-- Witness for C4: cost table sends `"A"` to 4, so the computed price is
4.47; current price 4.479 (difference exactly 0.009) is skipped, current
price 4.4791 (difference 0.0091) gets an update attempt to 4.47. -/
theorem tolerance_boundary_witness :
    processVariant ⟨RoundMode.none, false, [], [("A", 4)], fun _ => true⟩
        "Generic" "T" ⟨7, "A", 4479 / 1000⟩ = (VOutcome.skipped, Option.none) ∧
    (processVariant ⟨RoundMode.none, false, [], [("A", 4)], fun _ => true⟩
        "Generic" "T" ⟨7, "A", 44791 / 10000⟩).2 = Option.some (7, 447 / 100) := by
  have h1 := (tolerance_boundary ⟨RoundMode.none, false, [], [("A", 4)], fun _ => true⟩
      "Generic" "T" ⟨7, "A", 4479 / 1000⟩ (by with_unfolding_all decide)).1
      (eq_of_sub_num _ _ (by with_unfolding_all decide))
  have h2 := (tolerance_boundary ⟨RoundMode.none, false, [], [("A", 4)], fun _ => true⟩
      "Generic" "T" ⟨7, "A", 44791 / 10000⟩ (by with_unfolding_all decide)).2
      (eq_of_sub_num _ _ (by with_unfolding_all decide))
  exact ⟨h1, h2.trans (by with_unfolding_all decide)⟩

/-! ## Claim C6: the Printify pagination terminates and short-circuits -/

/-- C6: the remote-catalog lookup terminates — it fetches at most one page
beyond the pages the API has (it stops on an empty page, on a page shorter
than the page size, or on the first SKU match); and in the concrete
scenario of three full pages of 50 items with the match on page 3, it
returns the variant's first populated candidate price field (`retail_price
= 7`) after exactly 3 fetches, never fetching a 4th page no matter what
further pages hold. -/
theorem printify_lookup_terminates :
    (∀ sku : String, ∀ pages : List (List PifyProduct),
        (printifyLoop sku pages).2 ≤ pages.length + 1) ∧
    (∀ rest : List (List PifyProduct),
        getPrintifyVariantCostBySku true
            (fullPage :: fullPage :: matchPage :: rest) "TARGET" = 7 ∧
          printifyFetchCount true
            (fullPage :: fullPage :: matchPage :: rest) "TARGET" = 3) := by
  constructor
  · intro sku pages
    induction pages with
    | nil => simp [printifyLoop]
    | cons pg rest ih =>
        rw [printifyLoop]
        split
        · simp
        · cases hscan : scanPage sku pg with
          | some c => simp [hscan]
          | none =>
              simp only [hscan, List.length_cons]
              split
              · simp
              · simp only []
                omega
  · intro rest
    exact ⟨rfl, rfl⟩

/-! ## Claim C8: semantics of the bulk CSV cost table -/

/-- Rows whose SKU is absent from the key do not affect later lookups. -/
theorem lookupCost_foldl_of_ne (pf : String → Option ℚ) (k : String)
    (ys : List CsvRow) (hys : ∀ y ∈ ys, rowSku y ≠ k) :
    ∀ m : List (String × ℚ), lookupCost (ys.foldl (loadStep pf) m) k = lookupCost m k := by
  induction ys with
  | nil => intro m; rfl
  | cons y ys ih =>
      intro m
      have hy : rowSku y ≠ k := hys y (List.mem_cons_self y ys)
      have hys' : ∀ y' ∈ ys, rowSku y' ≠ k := fun y' h' =>
        hys y' (List.mem_cons_of_mem _ h')
      rw [List.foldl_cons, ih hys', loadStep]
      split
      · rfl
      · rw [lookupCost,
          List.find?_cons_of_neg _ (by simp [hy]), lookupCost]

/-- C8: loading the bulk cost feed builds a table where a row whose trimmed
SKU is empty is ignored, a row whose cost value is unparsable yields cost 0
for its SKU, and when several rows share the same SKU the cost of the last
such row wins. -/
theorem csv_feed_semantics :
    (∀ pf : String → Option ℚ, ∀ xs ys : List CsvRow, ∀ r : CsvRow,
        rowSku r = "" →
          loadAliExpressCSV pf (xs ++ r :: ys) = loadAliExpressCSV pf (xs ++ ys)) ∧
    (∀ pf : String → Option ℚ, ∀ r : CsvRow,
        pf (rowCostStr r) = Option.none → rowCost pf r = 0) ∧
    (∀ pf : String → Option ℚ, ∀ xs ys : List CsvRow, ∀ r : CsvRow,
        rowSku r ≠ "" → (∀ y ∈ ys, rowSku y ≠ rowSku r) →
          lookupCost (loadAliExpressCSV pf (xs ++ r :: ys)) (rowSku r) =
            rowCost pf r) := by
  refine ⟨?_, ?_, ?_⟩
  · intro pf xs ys r h
    rw [loadAliExpressCSV, loadAliExpressCSV, List.foldl_append,
      List.foldl_append, List.foldl_cons]
    simp [loadStep, h]
  · intro pf r h
    rw [rowCost, h]
    rfl
  · intro pf xs ys r h hys
    rw [loadAliExpressCSV, List.foldl_append, List.foldl_cons,
      lookupCost_foldl_of_ne pf (rowSku r) ys hys, loadStep, if_neg h,
      lookupCost, List.find?_cons_of_pos _ (by simp)]

/-- Witness for C8: the empty-SKU row is dropped, the unparsable cost is 0,
and of the two rows keyed `SKU123` the later one (cost 4) wins. -/
theorem csv_feed_semantics_witness :
    loadAliExpressCSV pfW ([rowGoodW] ++ rowEmptyW :: []) =
        loadAliExpressCSV pfW ([rowGoodW] ++ []) ∧
    rowCost pfW rowBadW = 0 ∧
    lookupCost (loadAliExpressCSV pfW ([rowBadW] ++ rowGoodW :: []))
        (rowSku rowGoodW) = rowCost pfW rowGoodW :=
  ⟨csv_feed_semantics.1 pfW [rowGoodW] [] rowEmptyW (by decide),
    csv_feed_semantics.2.1 pfW rowBadW (by decide),
    csv_feed_semantics.2.2 pfW [rowBadW] [] rowGoodW (by decide) (by simp)⟩

/-! ## Claim C9: the three counters partition the variants -/

/-- Each per-variant result lands in exactly one of the three counters. -/
theorem countP_outcomes (l : List (VOutcome × Option (Nat × ℚ))) :
    l.countP (fun r => r.1 == VOutcome.updated) +
      l.countP (fun r => r.1 == VOutcome.skipped) +
      l.countP (fun r => r.1 == VOutcome.err) = l.length := by
  induction l with
  | nil => rfl
  | cons hd tl ih =>
      rcases hd with ⟨o, u⟩
      cases o <;> simp [List.countP_cons] <;> omega

/-- C9: every pricing pass counts each processed variant in exactly one of
the three outcome counters: `updated + skipped + errors` equals the total
number of variants iterated over in the fetched products. -/
theorem outcome_counters_partition (e : Env) (products : List ShopProduct) :
    (runPricingJob e products).updated + (runPricingJob e products).skipped +
      (runPricingJob e products).errors =
      (products.map fun p => p.variants.length).sum := by
  show (jobResults e products).countP _ + (jobResults e products).countP _ +
      (jobResults e products).countP _ = _
  rw [countP_outcomes, jobResults, List.length_flatMap]
  simp [Function.comp_def]

/-! ## Claim C2: the end-to-end `SKU123` scenario -/

/-- C2 counterexample: the claimed target price 4.48 is wrong —
`(4.00 + 0.30) / 0.961 = 4.47450...`, which half-up rounds to 4.47, so the
computed price is not 4.48 and the attempted update is not to 4.48. -/
theorem scenario_448_counterexample :
    computePriceFromCost RoundMode.none 4 ≠ 448 / 100 ∧
    attemptedUpdates envScenario productsScenario ≠ [(101, 448 / 100)] := by
  constructor
  · with_unfolding_all decide
  · with_unfolding_all decide

/-- C2 (amended): in the scenario the computed target price is
`(4.00 + 0.30) / 0.961 = 4.4745...`, rounded (mode `none`) to 4.47; an
update to 4.47 is attempted for variant 101 and, succeeding, the pass
counts it as updated (1 updated, 0 skipped, 0 errors). -/
theorem scenario_447 :
    computePriceFromCost RoundMode.none 4 = 447 / 100 ∧
    attemptedUpdates envScenario productsScenario = [(101, 447 / 100)] ∧
    runPricingJob envScenario productsScenario = ⟨1, 0, 0⟩ := by
  refine ⟨?_, ?_, ?_⟩
  · with_unfolding_all decide
  · with_unfolding_all decide
  · with_unfolding_all decide

end Pricing
